import Mathlib

/-!
Verification of the OAuth 2.0 authorization-server core
(`server/app/storage.py`, `server/app/oauth/{pkce,token,dcr,authorize}.py`).

The Python source is shallowly embedded: the in-memory storage dictionaries
become association lists, `datetime.utcnow()` becomes an explicit `now : Nat`
argument, and the `hashlib`/`base64` library calls used by the PKCE module are
implemented from their standards (FIPS 180-4, RFC 4648).
-/

namespace OAuthCore

/-! ## Byte-level primitives: UTF-8, SHA-256 (FIPS 180-4), base64url (RFC 4648) -/

/-- UTF-8 encoding of a single character (as in Python's `str.encode('utf-8')`). -/
def utf8Char (c : Char) : List Nat :=
  let n := c.toNat
  if n < 128 then [n]
  else if n < 2048 then [192 + n / 64, 128 + n % 64]
  else if n < 65536 then [224 + n / 4096, 128 + n / 64 % 64, 128 + n % 64]
  else [240 + n / 262144, 128 + n / 4096 % 64, 128 + n / 64 % 64, 128 + n % 64]

/-- UTF-8 encoding of a character list. -/
def utf8Bytes : List Char → List Nat
  | [] => []
  | c :: cs => utf8Char c ++ utf8Bytes cs

/-- UTF-8 encoding of a string, the bytes Python's `s.encode('utf-8')` yields. -/
def utf8 (s : String) : List Nat := utf8Bytes s.data

/-- 32-bit right rotation, on `Nat` values kept below `2 ^ 32`. -/
def rotr32 (x n : Nat) : Nat := ((x >>> n) ||| (x <<< (32 - n))) % 4294967296

/-- The 64 SHA-256 round constants. -/
def sha256K : List Nat :=
  [1116352408, 1899447441, 3049323471, 3921009573, 961987163, 1508970993,
   2453635748, 2870763221, 3624381080, 310598401, 607225278, 1426881987,
   1925078388, 2162078206, 2614888103, 3248222580, 3835390401, 4022224774,
   264347078, 604807628, 770255983, 1249150122, 1555081692, 1996064986,
   2554220882, 2821834349, 2952996808, 3210313671, 3336571891, 3584528711,
   113926993, 338241895, 666307205, 773529912, 1294757372, 1396182291,
   1695183700, 1986661051, 2177026350, 2456956037, 2730485921, 2820302411,
   3259730800, 3345764771, 3516065817, 3600352804, 4094571909, 275423344,
   430227734, 506948616, 659060556, 883997877, 958139571, 1322822218,
   1537002063, 1747873779, 1955562222, 2024104815, 2227730452, 2361852424,
   2428436474, 2756734187, 3204031479, 3329325298]

/-- SHA-256 working state: the eight 32-bit variables of the compression loop. -/
structure Sha256State where
  a : Nat
  b : Nat
  c : Nat
  d : Nat
  e : Nat
  f : Nat
  g : Nat
  h : Nat

/-- The SHA-256 initial hash value. -/
def sha256H0 : Sha256State :=
  ⟨1779033703, 3144134277, 1013904242, 2773480762,
   1359893119, 2600822924, 528734635, 1541459225⟩

/-- One round of the SHA-256 compression function. -/
def sha256Round (s : Sha256State) (k w : Nat) : Sha256State :=
  let s1 := rotr32 s.e 6 ^^^ rotr32 s.e 11 ^^^ rotr32 s.e 25
  let ch := (s.e &&& s.f) ^^^ ((s.e ^^^ 4294967295) &&& s.g)
  let t1 := (s.h + s1 + ch + k + w) % 4294967296
  let s0 := rotr32 s.a 2 ^^^ rotr32 s.a 13 ^^^ rotr32 s.a 22
  let mj := (s.a &&& s.b) ^^^ (s.a &&& s.c) ^^^ (s.b &&& s.c)
  let t2 := (s0 + mj) % 4294967296
  ⟨(t1 + t2) % 4294967296, s.a, s.b, s.c, (s.d + t1) % 4294967296, s.e, s.f, s.g⟩

/-- Run the compression rounds over paired round constants and schedule words. -/
def sha256Rounds : Sha256State → List Nat → List Nat → Sha256State
  | s, k :: ks, w :: ws => sha256Rounds (sha256Round s k w) ks ws
  | s, _, _ => s

/-- Group bytes into big-endian 32-bit words. -/
def bytesToWords : List Nat → List Nat
  | a :: b :: c :: d :: rest =>
      (a * 16777216 + b * 65536 + c * 256 + d) :: bytesToWords rest
  | _ => []

/-- The next message-schedule word, from the reversed list of previous words. -/
def sha256NextWord (racc : List Nat) : Nat :=
  let w2 := racc.getD 1 0
  let w7 := racc.getD 6 0
  let w15 := racc.getD 14 0
  let w16 := racc.getD 15 0
  let sg0 := rotr32 w15 7 ^^^ rotr32 w15 18 ^^^ (w15 >>> 3)
  let sg1 := rotr32 w2 17 ^^^ rotr32 w2 19 ^^^ (w2 >>> 10)
  (w16 + sg0 + w7 + sg1) % 4294967296

/-- Extend the (reversed) message schedule by `n` further words. -/
def sha256Extend : Nat → List Nat → List Nat
  | 0, racc => racc
  | n + 1, racc => sha256Extend n (sha256NextWord racc :: racc)

/-- Message schedule of one 64-byte chunk: 16 words extended to 64. -/
def sha256Schedule (chunk : List Nat) : List Nat :=
  (sha256Extend 48 (bytesToWords chunk).reverse).reverse

/-- Pointwise 32-bit addition of two hash states. -/
def sha256Add (x y : Sha256State) : Sha256State :=
  ⟨(x.a + y.a) % 4294967296, (x.b + y.b) % 4294967296,
   (x.c + y.c) % 4294967296, (x.d + y.d) % 4294967296,
   (x.e + y.e) % 4294967296, (x.f + y.f) % 4294967296,
   (x.g + y.g) % 4294967296, (x.h + y.h) % 4294967296⟩

/-- Process one 64-byte chunk. -/
def sha256Chunk (s : Sha256State) (chunk : List Nat) : Sha256State :=
  sha256Add s (sha256Rounds s sha256K (sha256Schedule chunk))

/-- Process the padded message 64 bytes at a time; the fuel argument (at least
the number of chunks) makes the recursion structural. -/
def sha256ChunksGo : Nat → Sha256State → List Nat → Sha256State
  | _, s, [] => s
  | 0, s, _ => s
  | fuel + 1, s, bs => sha256ChunksGo fuel (sha256Chunk s (bs.take 64)) (bs.drop 64)

/-- Process the padded message, 64 bytes at a time. -/
def sha256Chunks (s : Sha256State) (bs : List Nat) : Sha256State :=
  sha256ChunksGo bs.length s bs

/-- Big-endian 8-byte encoding of the bit length. -/
def lenBytes (n : Nat) : List Nat :=
  [n / 72057594037927936 % 256, n / 281474976710656 % 256,
   n / 1099511627776 % 256, n / 4294967296 % 256,
   n / 16777216 % 256, n / 65536 % 256, n / 256 % 256, n % 256]

/-- SHA-256 padding: append `0x80`, zeros to 56 mod 64, then the bit length. -/
def sha256Pad (msg : List Nat) : List Nat :=
  let l := msg.length
  let zeros := (64 + 55 - l % 64) % 64
  msg ++ 128 :: List.replicate zeros 0 ++ lenBytes (l * 8)

/-- Big-endian bytes of one 32-bit word. -/
def wordBytes (w : Nat) : List Nat :=
  [w / 16777216 % 256, w / 65536 % 256, w / 256 % 256, w % 256]

/-- The digest bytes of a final hash state. -/
def sha256Digest (s : Sha256State) : List Nat :=
  wordBytes s.a ++ wordBytes s.b ++ wordBytes s.c ++ wordBytes s.d ++
  wordBytes s.e ++ wordBytes s.f ++ wordBytes s.g ++ wordBytes s.h

/-- SHA-256 of a byte list (FIPS 180-4), as Python's `hashlib.sha256(...).digest()`. -/
def sha256 (msg : List Nat) : List Nat :=
  sha256Digest (sha256Chunks sha256H0 (sha256Pad msg))

/-- The base64url alphabet (RFC 4648 §5). -/
def b64Alphabet : List Char :=
  ['A', 'B', 'C', 'D', 'E', 'F', 'G', 'H', 'I', 'J', 'K', 'L', 'M',
   'N', 'O', 'P', 'Q', 'R', 'S', 'T', 'U', 'V', 'W', 'X', 'Y', 'Z',
   'a', 'b', 'c', 'd', 'e', 'f', 'g', 'h', 'i', 'j', 'k', 'l', 'm',
   'n', 'o', 'p', 'q', 'r', 's', 't', 'u', 'v', 'w', 'x', 'y', 'z',
   '0', '1', '2', '3', '4', '5', '6', '7', '8', '9', '-', '_']

/-- The base64url character of a sextet. -/
def b64Char (n : Nat) : Char := b64Alphabet.getD n 'A'

/-- Base64url encoding without padding: Python's
`base64.urlsafe_b64encode(x).decode('utf-8').rstrip('=')`. -/
def b64urlNoPad : List Nat → List Char
  | [] => []
  | [a] => [b64Char (a / 4), b64Char (a % 4 * 16)]
  | [a, b] => [b64Char (a / 4), b64Char (a % 4 * 16 + b / 16), b64Char (b % 16 * 4)]
  | a :: b :: c :: rest =>
      b64Char (a / 4) :: b64Char (a % 4 * 16 + b / 16) ::
      b64Char (b % 16 * 4 + c / 64) :: b64Char (c % 64) :: b64urlNoPad rest

/-! ## Data model (`models.py`) -/

/-- PKCE code-challenge methods (`models.CodeChallengeMethod`). -/
inductive CodeChallengeMethod
  | S256
  | plain
deriving DecidableEq

/-- Internal model for a registered client (`models.RegisteredClient`). -/
structure RegisteredClient where
  client_id : String
  client_secret : Option String
  redirect_uris : List String
  client_name : Option String
  client_uri : Option String
  scope : Option String
  grant_types : List String
  response_types : List String
  created_at : Nat
deriving DecidableEq

/-- Internal model for an authorization code (`models.AuthorizationCode`). -/
structure AuthorizationCode where
  code : String
  client_id : String
  redirect_uri : String
  scope : Option String
  code_challenge : String
  code_challenge_method : CodeChallengeMethod
  user_id : String
  expires_at : Nat
  used : Bool
deriving DecidableEq

/-- Internal model for a refresh token (`models.RefreshToken`). -/
structure RefreshToken where
  token : String
  client_id : String
  user_id : String
  scope : Option String
  expires_at : Nat
  revoked : Bool
deriving DecidableEq

/-! ## Storage (`storage.py`)

The Python dictionaries become association lists; `datetime.utcnow()` becomes
an explicit `now : Nat` argument to the operations that read the clock. -/

/-- Python `d.get(k)` on a dict modelled as an association list. -/
def dictGet {α : Type} (d : List (String × α)) (k : String) : Option α :=
  match d with
  | [] => none
  | (k', v) :: rest => if k' = k then some v else dictGet rest k

/-- Python `d[k] = v`: replace the binding of `k`, or add one. -/
def dictSet {α : Type} (d : List (String × α)) (k : String) (v : α) :
    List (String × α) :=
  match d with
  | [] => [(k, v)]
  | (k', v') :: rest =>
      if k' = k then (k, v) :: rest else (k', v') :: dictSet rest k v

/-- In-memory storage for OAuth entities (`storage.InMemoryStorage`). -/
structure InMemoryStorage where
  clients : List (String × RegisteredClient)
  authorization_codes : List (String × AuthorizationCode)
  refresh_tokens : List (String × RefreshToken)
deriving DecidableEq

/-- Store a registered client. -/
def InMemoryStorage.store_client (s : InMemoryStorage)
    (client : RegisteredClient) : InMemoryStorage :=
  { s with clients := dictSet s.clients client.client_id client }

/-- Retrieve a client by ID. -/
def InMemoryStorage.get_client (s : InMemoryStorage) (client_id : String) :
    Option RegisteredClient :=
  dictGet s.clients client_id

/-- Store an authorization code. -/
def InMemoryStorage.store_authorization_code (s : InMemoryStorage)
    (auth_code : AuthorizationCode) : InMemoryStorage :=
  { s with authorization_codes :=
      dictSet s.authorization_codes auth_code.code auth_code }

/-- Retrieve an authorization code: `None` when absent, expired, or used. -/
def InMemoryStorage.get_authorization_code (s : InMemoryStorage) (code : String)
    (now : Nat) : Option AuthorizationCode :=
  match dictGet s.authorization_codes code with
  | none => none
  | some auth_code =>
      if now > auth_code.expires_at then none
      else if auth_code.used then none
      else some auth_code

/-- Mark an authorization code as used; `false` when the code is absent,
already used, or expired, in the source's check order. -/
def InMemoryStorage.mark_code_as_used (s : InMemoryStorage) (code : String)
    (now : Nat) : Bool × InMemoryStorage :=
  match dictGet s.authorization_codes code with
  | none => (false, s)
  | some auth_code =>
      if auth_code.used then (false, s)
      else if now > auth_code.expires_at then (false, s)
      else (true, { s with authorization_codes :=
          (dictSet s.authorization_codes code { auth_code with used := true }) })

/-- Store a refresh token. -/
def InMemoryStorage.store_refresh_token (s : InMemoryStorage)
    (refresh_token : RefreshToken) : InMemoryStorage :=
  { s with refresh_tokens := dictSet s.refresh_tokens refresh_token.token refresh_token }

/-- Retrieve a refresh token: `None` when absent, expired, or revoked. -/
def InMemoryStorage.get_refresh_token (s : InMemoryStorage) (token : String)
    (now : Nat) : Option RefreshToken :=
  match dictGet s.refresh_tokens token with
  | none => none
  | some refresh_token =>
      if now > refresh_token.expires_at then none
      else if refresh_token.revoked then none
      else some refresh_token

/-- Revoke a refresh token (idempotent; no effect on an unknown value). -/
def InMemoryStorage.revoke_refresh_token (s : InMemoryStorage) (token : String) :
    InMemoryStorage :=
  match dictGet s.refresh_tokens token with
  | none => s
  | some refresh_token =>
      { s with refresh_tokens :=
          dictSet s.refresh_tokens token { refresh_token with revoked := true } }

/-! ## PKCE (`oauth/pkce.py`) -/

/-- Generate a code challenge from a code verifier (`pkce.generate_code_challenge`). -/
def generate_code_challenge (code_verifier : String)
    (method : CodeChallengeMethod) : String :=
  match method with
  | .S256 => (b64urlNoPad (sha256 (utf8 code_verifier))).asString
  | .plain => code_verifier

/-- Verify that a code verifier matches a code challenge
(`pkce.verify_code_challenge`): recompute and compare with `==`. -/
def verify_code_challenge (code_verifier code_challenge : String)
    (method : CodeChallengeMethod) : Bool :=
  generate_code_challenge code_verifier method == code_challenge

/-! ## Settings (`config.py`) -/

/-- Application settings (`config.Settings`); loaded from the environment, so
endpoint functions take them as a parameter. Times are in seconds. -/
structure Settings where
  SERVER_URL : String
  JWT_SECRET_KEY : String
  JWT_ACCESS_TOKEN_EXPIRE_MINUTES : Nat
  OAUTH_AUTHORIZATION_CODE_EXPIRE_MINUTES : Nat
  OAUTH_REFRESH_TOKEN_EXPIRE_DAYS : Nat
deriving DecidableEq

/-- The default settings values of `config.Settings`. -/
def defaultSettings : Settings :=
  { SERVER_URL := "http://localhost:8000"
    JWT_SECRET_KEY := "dev-secret-key-change-in-production"
    JWT_ACCESS_TOKEN_EXPIRE_MINUTES := 60
    OAUTH_AUTHORIZATION_CODE_EXPIRE_MINUTES := 10
    OAUTH_REFRESH_TOKEN_EXPIRE_DAYS := 30 }

/-! ## JWT model (python-jose, used by `oauth/token.py`) -/

/-- The claim set `token.create_access_token` builds. -/
structure JwtClaims where
  sub : String
  client_id : String
  scope : String
  exp : Nat
  iat : Nat
  iss : String
  aud : String
deriving DecidableEq

/-- A serialization of the claim set, input of the signature model. -/
def serializeClaims (c : JwtClaims) : String :=
  c.sub ++ "|" ++ c.client_id ++ "|" ++ c.scope ++ "|" ++ toString c.exp ++ "|"
    ++ toString c.iat ++ "|" ++ c.iss ++ "|" ++ c.aud

/-- Modelled from the spec: the python-jose library's HMAC-SHA256 JWS signing
(`jwt.encode` with HS256), abstracted as a deterministic SHA-256 digest of the
signing key and the serialized claim set ("signs with a symmetric key and a
fixed algorithm", §4.5). -/
def jwtSign (key : String) (c : JwtClaims) : List Nat :=
  sha256 (utf8 key ++ utf8 (serializeClaims c))

/-- A signed token: claim set plus signature (the payload of a JWS). -/
structure Jwt where
  claims : JwtClaims
  sig : List Nat
deriving DecidableEq

/-- Failure modes of python-jose `jwt.decode`, all subclasses of `JWTError`. -/
inductive JoseError
  | signatureInvalid
  | signatureExpired
  | invalidAudience
deriving DecidableEq

/-- The `str(e)` of each python-jose failure, as interpolated by
`token.verify_access_token` into the HTTP error detail. -/
def JoseError.message : JoseError → String
  | .signatureInvalid => "Signature verification failed."
  | .signatureExpired => "Signature has expired."
  | .invalidAudience => "Invalid audience"

/-- Modelled from the spec: python-jose `jwt.decode` — verify the signature,
then reject an `exp` strictly in the past, then check the audience. -/
def jwt_decode (tok : Jwt) (key : String) (audience : String) (now : Nat) :
    Except JoseError JwtClaims :=
  if tok.sig ≠ jwtSign key tok.claims then .error .signatureInvalid
  else if tok.claims.exp < now then .error .signatureExpired
  else if tok.claims.aud ≠ audience then .error .invalidAudience
  else .ok tok.claims

/-! ## Shared HTTP pieces -/

/-- A raised `fastapi.HTTPException`, as observed by the caller. -/
structure HTTPException where
  status_code : Nat
  detail : String
  www_authenticate : Option String
deriving DecidableEq

/-- Python truthiness test `not x` on an optional form/string value:
true for `None` and for the empty string. -/
def isBlank : Option String → Bool
  | none => true
  | some s => s == ""

/-- Python `x or d` on an optional string: `d` when `x` is `None` or empty. -/
def pyOrStr (x : Option String) (d : String) : String :=
  match x with
  | none => d
  | some s => if s = "" then d else s

/-- Python `x or d` on an optional list: `d` when `x` is `None` or empty. -/
def pyOrList {α : Type} [DecidableEq α] (x : Option (List α)) (d : List α) :
    List α :=
  match x with
  | none => d
  | some l => if l = [] then d else l

/-- Python `x or d` on two optional strings: `d` when `x` is `None` or empty. -/
def pyOrOpt (x d : Option String) : Option String :=
  match x with
  | none => d
  | some s => if s = "" then d else some s

/-! ## Token endpoint (`oauth/token.py`) -/

/-- The body of a 200 response from the token endpoint (`models.TokenResponse`). -/
structure TokenResponse where
  access_token : Jwt
  token_type : String
  expires_in : Nat
  refresh_token : Option String
  scope : Option String
deriving DecidableEq

/-- Create a JWT access token (`token.create_access_token`); returns the token
and `expires_in` seconds. -/
def create_access_token (cfg : Settings) (now : Nat) (client_id user_id : String)
    (scope : Option String) : Jwt × Nat :=
  let expires_in := cfg.JWT_ACCESS_TOKEN_EXPIRE_MINUTES * 60
  let expires_at := now + cfg.JWT_ACCESS_TOKEN_EXPIRE_MINUTES * 60
  let claims : JwtClaims :=
    { sub := user_id
      client_id := client_id
      scope := pyOrStr scope ""
      exp := expires_at
      iat := now
      iss := cfg.SERVER_URL
      aud := cfg.SERVER_URL }
  ({ claims := claims, sig := jwtSign cfg.JWT_SECRET_KEY claims }, expires_in)

/-- Verify and decode a JWT access token (`token.verify_access_token`): any
decode failure becomes a 401 whose detail interpolates the library message. -/
def verify_access_token (cfg : Settings) (tok : Jwt) (now : Nat) :
    Except HTTPException JwtClaims :=
  match jwt_decode tok cfg.JWT_SECRET_KEY cfg.SERVER_URL now with
  | .ok payload => .ok payload
  | .error e =>
      .error { status_code := 401
               detail := "Invalid token: " ++ e.message
               www_authenticate := some "Bearer" }

/-- The OAuth 2.0 token endpoint (`token.token_endpoint`). `now` is the clock,
`new_refresh_token` the value `generate_refresh_token()` would draw. Returns
the response (or raised exception) and the storage afterwards. -/
def token_endpoint (cfg : Settings) (st : InMemoryStorage) (now : Nat)
    (new_refresh_token : String) (grant_type : String)
    (code redirect_uri code_verifier refresh_token : Option String)
    (client_id : String) (client_secret : Option String) :
    Except HTTPException TokenResponse × InMemoryStorage :=
  match st.get_client client_id with
  | none => (.error ⟨401, "Invalid client credentials", none⟩, st)
  | some client =>
    if client_secret ≠ none ∧ client.client_secret ≠ client_secret then
      (.error ⟨401, "Invalid client credentials", none⟩, st)
    else if grant_type = "authorization_code" then
      if isBlank code ∨ isBlank redirect_uri ∨ isBlank code_verifier then
        (.error ⟨400, "code, redirect_uri, and code_verifier are required", none⟩, st)
      else
        match st.get_authorization_code (code.getD "") now with
        | none => (.error ⟨400, "Invalid or expired authorization code", none⟩, st)
        | some auth_code =>
          if auth_code.client_id ≠ client_id then
            (.error ⟨400, "Authorization code was issued to different client", none⟩, st)
          else if auth_code.redirect_uri ≠ redirect_uri.getD "" then
            (.error ⟨400, "Redirect URI mismatch", none⟩, st)
          else if ¬ verify_code_challenge (code_verifier.getD "")
              auth_code.code_challenge auth_code.code_challenge_method then
            (.error ⟨400, "Invalid code_verifier", none⟩, st)
          else
            match st.mark_code_as_used (code.getD "") now with
            | (false, st1) =>
                (.error ⟨400, "Authorization code already used or expired", none⟩, st1)
            | (true, st1) =>
                let minted := create_access_token cfg now client_id
                  auth_code.user_id auth_code.scope
                let refresh_token_obj : RefreshToken :=
                  { token := new_refresh_token
                    client_id := client_id
                    user_id := auth_code.user_id
                    scope := auth_code.scope
                    expires_at := now + cfg.OAUTH_REFRESH_TOKEN_EXPIRE_DAYS * 86400
                    revoked := false }
                (.ok { access_token := minted.1
                       token_type := "Bearer"
                       expires_in := minted.2
                       refresh_token := some new_refresh_token
                       scope := auth_code.scope },
                 st1.store_refresh_token refresh_token_obj)
    else if grant_type = "refresh_token" then
      if isBlank refresh_token then
        (.error ⟨400, "refresh_token is required", none⟩, st)
      else
        match st.get_refresh_token (refresh_token.getD "") now with
        | none => (.error ⟨400, "Invalid or expired refresh token", none⟩, st)
        | some refresh_token_obj =>
          if refresh_token_obj.client_id ≠ client_id then
            (.error ⟨400, "Refresh token was issued to different client", none⟩, st)
          else
            let minted := create_access_token cfg now client_id
              refresh_token_obj.user_id refresh_token_obj.scope
            (.ok { access_token := minted.1
                   token_type := "Bearer"
                   expires_in := minted.2
                   refresh_token := refresh_token
                   scope := refresh_token_obj.scope }, st)
    else
      (.error ⟨400, "Unsupported grant_type: " ++ grant_type, none⟩, st)

/-! ## Dynamic client registration (`oauth/dcr.py`) -/

/-- Client registration request body (`models.ClientRegistrationRequest`). -/
structure ClientRegistrationRequest where
  redirect_uris : List String
  client_name : Option String
  client_uri : Option String
  scope : Option String
  grant_types : Option (List String)
  response_types : Option (List String)
deriving DecidableEq

/-- Client registration response body (`models.ClientRegistrationResponse`). -/
structure ClientRegistrationResponse where
  client_id : String
  client_secret : Option String
  client_secret_expires_at : Nat
  redirect_uris : List String
  client_name : Option String
  client_uri : Option String
  scope : Option String
  grant_types : List String
  response_types : List String
deriving DecidableEq

/-- The registration endpoint (`dcr.register_client`); `gen_client_id` and
`gen_client_secret` are the values its two generators would draw. -/
def register_client (st : InMemoryStorage) (now : Nat)
    (gen_client_id gen_client_secret : String)
    (request : ClientRegistrationRequest) :
    Except HTTPException ClientRegistrationResponse × InMemoryStorage :=
  if request.redirect_uris = [] then
    (.error ⟨400, "redirect_uris is required and must not be empty", none⟩, st)
  else
    let client : RegisteredClient :=
      { client_id := gen_client_id
        client_secret := some gen_client_secret
        redirect_uris := request.redirect_uris
        client_name := request.client_name
        client_uri := request.client_uri
        scope := some (pyOrStr request.scope "mcp:tools:read mcp:tools:execute")
        grant_types := pyOrList request.grant_types
          ["authorization_code", "refresh_token"]
        response_types := pyOrList request.response_types ["code"]
        created_at := now }
    (.ok { client_id := gen_client_id
           client_secret := some gen_client_secret
           client_secret_expires_at := 0
           redirect_uris := client.redirect_uris
           client_name := client.client_name
           client_uri := client.client_uri
           scope := client.scope
           grant_types := client.grant_types
           response_types := client.response_types },
     st.store_client client)

/-! ## Authorization endpoint (`oauth/authorize.py`) -/

/-- The authorization endpoint (`authorize.authorize`): validates the request,
stores a fresh code, and redirects. `gen_code` is the value
`generate_authorization_code()` would draw; the success value is the redirect
URL. -/
def authorize (cfg : Settings) (st : InMemoryStorage) (now : Nat)
    (gen_code : String) (response_type client_id redirect_uri : String)
    (code_challenge : String) (code_challenge_method : String)
    (scope state : Option String) :
    Except HTTPException String × InMemoryStorage :=
  if response_type ≠ "code" then
    (.error ⟨400, "Unsupported response_type. Only 'code' is supported.", none⟩, st)
  else
    match st.get_client client_id with
    | none => (.error ⟨400, "Invalid client_id", none⟩, st)
    | some client =>
      if redirect_uri ∉ client.redirect_uris then
        (.error ⟨400, "Invalid redirect_uri", none⟩, st)
      else if code_challenge = "" then
        (.error ⟨400, "code_challenge is required", none⟩, st)
      else
        let parsed : Option CodeChallengeMethod :=
          if code_challenge_method = "S256" then some .S256
          else if code_challenge_method = "plain" then some .plain
          else none
        match parsed with
        | none =>
            (.error ⟨400, "Unsupported code_challenge_method: "
              ++ code_challenge_method, none⟩, st)
        | some challenge_method =>
          let auth_code : AuthorizationCode :=
            { code := gen_code
              client_id := client_id
              redirect_uri := redirect_uri
              scope := pyOrOpt scope client.scope
              code_challenge := code_challenge
              code_challenge_method := challenge_method
              user_id := "mock_user_123"
              expires_at := now + cfg.OAUTH_AUTHORIZATION_CODE_EXPIRE_MINUTES * 60
              used := false }
          let base := redirect_uri ++ "?code=" ++ gen_code
          let redirect_url :=
            match state with
            | none => base
            | some s => if s = "" then base else base ++ "&state=" ++ s
          (.ok redirect_url, st.store_authorization_code auth_code)

/-! ## Fine-grained concurrency model of `mark_code_as_used`

`InMemoryStorage.mark_code_as_used` holds no lock: its check phase
(`storage.py` lines 72-83, reading the record and testing the used flag and
expiry) and its set phase (line 86, `auth_code.used = True`) are separate
Python statements, so a concurrent caller can be scheduled between them. Each
phase is modelled as one atomic action; a schedule interleaves the actions of
two callers redeeming the same code. -/

/-- Program counter of one caller inside `mark_code_as_used`. -/
inductive MarkPC
  | start
  | checksPassed
  | finished (result : Bool)
deriving DecidableEq

/-- One caller of `mark_code_as_used`: its control point and code argument. -/
structure MarkThread where
  pc : MarkPC
  code : String
deriving DecidableEq

/-- One atomic step of a caller. From `start`, the check phase reads the
shared storage and either fails out or reaches `checksPassed`; from
`checksPassed`, the set phase writes `used := true` unconditionally and
returns `true` — exactly the statement sequence of the Python method, which
never re-checks the flag between its test and its assignment. -/
def markStep (st : InMemoryStorage) (now : Nat) (t : MarkThread) :
    MarkThread × InMemoryStorage :=
  match t.pc with
  | .start =>
      match dictGet st.authorization_codes t.code with
      | none => ({ t with pc := .finished false }, st)
      | some auth_code =>
          if auth_code.used then ({ t with pc := .finished false }, st)
          else if now > auth_code.expires_at then ({ t with pc := .finished false }, st)
          else ({ t with pc := .checksPassed }, st)
  | .checksPassed =>
      match dictGet st.authorization_codes t.code with
      | none => ({ t with pc := .finished true }, st)
      | some auth_code =>
          ({ t with pc := .finished true },
           { st with authorization_codes :=
              (dictSet st.authorization_codes t.code { auth_code with used := true }) })
  | .finished _ => (t, st)

/-- Run two concurrent callers under a schedule: `true` steps the first
caller, `false` the second. -/
def runSchedule (now : Nat) : List Bool →
    (MarkThread × MarkThread) × InMemoryStorage →
    (MarkThread × MarkThread) × InMemoryStorage
  | [], s => s
  | b :: rest, ((t1, t2), st) =>
      if b then
        let r := markStep st now t1
        runSchedule now rest ((r.1, t2), r.2)
      else
        let r := markStep st now t2
        runSchedule now rest ((t1, r.1), r.2)

/-! ## Concrete fixtures used by witnesses and counterexamples -/

/-- A registered client fixture. -/
def client0 : RegisteredClient :=
  { client_id := "client_abc"
    client_secret := some "secret0"
    redirect_uris := ["https://a/cb"]
    client_name := some "Test Client"
    client_uri := none
    scope := some "mcp:tools:read"
    grant_types := ["authorization_code", "refresh_token"]
    response_types := ["code"]
    created_at := 0 }

/-- An unused, unexpired authorization code fixture (plain PKCE method). -/
def ac0 : AuthorizationCode :=
  { code := "codeX"
    client_id := "client_abc"
    redirect_uri := "https://a/cb"
    scope := some "mcp:tools:read"
    code_challenge := "verifier0"
    code_challenge_method := .plain
    user_id := "mock_user_123"
    expires_at := 1000
    used := false }

/-- A valid refresh token fixture. -/
def rt0 : RefreshToken :=
  { token := "rtX"
    client_id := "client_abc"
    user_id := "mock_user_123"
    scope := some "mcp:tools:read"
    expires_at := 100000
    revoked := false }

/-- A storage fixture holding the three records above. -/
def st0 : InMemoryStorage :=
  { clients := [("client_abc", client0)]
    authorization_codes := [("codeX", ac0)]
    refresh_tokens := [("rtX", rt0)] }

/-- An access token minted at time 0 with the default settings. -/
def tok0 : Jwt :=
  (create_access_token defaultSettings 0 "client_abc" "mock_user_123"
    (some "mcp:tools:read")).1

/-- `tok0` with a tampered signature. -/
def tok0Tampered : Jwt := { tok0 with sig := [] }

/-- Settings with the authorization-code lifetime set to zero (a ttl=0
issuance), as the environment can configure. -/
def cfgTtl0 : Settings :=
  { defaultSettings with OAUTH_AUTHORIZATION_CODE_EXPIRE_MINUTES := 0 }

/-- A registration request fixture with one redirect URI. -/
def regReq0 : ClientRegistrationRequest :=
  { redirect_uris := ["https://a/cb"]
    client_name := some "Test Client"
    client_uri := none
    scope := none
    grant_types := none
    response_types := none }

/-! ## Arithmetic view of digests (proof infrastructure) -/

/-- Base-256 value of a byte list (big-endian). -/
def bytesToNat : List Nat → Nat
  | [] => 0
  | b :: rest => b * 256 ^ rest.length + bytesToNat rest

/-- The string of `n` letters 'a', a family of pairwise distinct verifiers. -/
def repChar (n : Nat) : String := String.mk (List.replicate n 'a')

/-- The sextet index of a base64url character (inverse of `b64Char`). -/
def sextetOf (c : Char) : Nat := b64Alphabet.indexOf c

/-- Decoder of unpadded base64url, the inverse of `b64urlNoPad` on byte
lists (proof infrastructure for injectivity). -/
def b64Decode : List Char → List Nat
  | [c1, c2] => [sextetOf c1 * 4 + sextetOf c2 / 16]
  | [c1, c2, c3] =>
      [sextetOf c1 * 4 + sextetOf c2 / 16,
       sextetOf c2 % 16 * 16 + sextetOf c3 / 4]
  | c1 :: c2 :: c3 :: c4 :: rest =>
      (sextetOf c1 * 4 + sextetOf c2 / 16) ::
      (sextetOf c2 % 16 * 16 + sextetOf c3 / 4) ::
      (sextetOf c3 % 4 * 64 + sextetOf c4) :: b64Decode rest
  | _ => []

/-- The digest value of the `n`-th verifier, packaged in the finite type of
32-byte values (proof infrastructure for the pigeonhole argument). -/
def shaFin (n : Nat) : Fin (256 ^ 32) :=
  ⟨bytesToNat (sha256 (utf8 (repChar n))) % 256 ^ 32,
    Nat.mod_lt _ (by positivity)⟩

/-! # Theorems -/

/-- Lookup after insert at the same key. -/
theorem dictGet_dictSet_self {α : Type} (d : List (String × α)) (k : String)
    (v : α) : dictGet (dictSet d k v) k = some v := by
  induction d with
  | nil => simp [dictGet, dictSet]
  | cons p rest ih =>
      by_cases h : p.1 = k <;> simp [dictGet, dictSet, h, ih]

/-- Lookup after insert at a different key. -/
theorem dictGet_dictSet_ne {α : Type} (d : List (String × α)) (k k' : String)
    (v : α) (h : k ≠ k') : dictGet (dictSet d k v) k' = dictGet d k' := by
  induction d with
  | nil => simp [dictGet, dictSet, h]
  | cons p rest ih =>
      by_cases hp : p.1 = k
      · simp [dictGet, dictSet, hp, h]
      · simp only [dictSet, hp, if_false]
        by_cases hq : p.1 = k' <;> simp [dictGet, hq, ih]

/-- C9: registering with an empty redirect-URI list fails with the 400
InvalidRequest error and leaves storage unchanged; registering with a
non-empty list succeeds, returns the generated client_id, and looking that
client_id up in the resulting storage returns the stored client record. -/
theorem claim9_registration_validation (st : InMemoryStorage) (now : Nat)
    (cid sec : String) (req : ClientRegistrationRequest) :
    (req.redirect_uris = [] →
      register_client st now cid sec req =
        (.error ⟨400, "redirect_uris is required and must not be empty", none⟩, st)) ∧
    (req.redirect_uris ≠ [] →
      ∃ resp st1, register_client st now cid sec req = (.ok resp, st1) ∧
        resp.client_id = cid ∧
        ∃ c, st1.get_client resp.client_id = some c ∧
          c.client_id = cid ∧ c.redirect_uris = req.redirect_uris) := by
  constructor
  · intro h
    simp [register_client, h]
  · intro h
    unfold register_client
    rw [if_neg h]
    refine ⟨_, _, rfl, rfl,
      { client_id := cid
        client_secret := some sec
        redirect_uris := req.redirect_uris
        client_name := req.client_name
        client_uri := req.client_uri
        scope := some (pyOrStr req.scope "mcp:tools:read mcp:tools:execute")
        grant_types := pyOrList req.grant_types
          ["authorization_code", "refresh_token"]
        response_types := pyOrList req.response_types ["code"]
        created_at := now }, ?_, rfl, rfl⟩
    simp [InMemoryStorage.get_client, InMemoryStorage.store_client,
      dictGet_dictSet_self]

/-- A refresh-token lookup with an unknown, expired, or revoked value yields
`none`. -/
theorem get_refresh_token_invalid_none (st : InMemoryStorage) (tv : String)
    (now : Nat)
    (hfail : dictGet st.refresh_tokens tv = none ∨
      (∃ rt, dictGet st.refresh_tokens tv = some rt ∧ now > rt.expires_at) ∨
      (∃ rt, dictGet st.refresh_tokens tv = some rt ∧ rt.revoked = true)) :
    st.get_refresh_token tv now = none := by
  unfold InMemoryStorage.get_refresh_token
  rcases hfail with h | ⟨rt, h, hexp⟩ | ⟨rt, h, hrev⟩
  · simp [h]
  · simp [h, hexp]
  · by_cases he : now > rt.expires_at <;> simp [h, he, hrev]

/-- A refresh-token lookup with a stored, unexpired, unrevoked value yields
the record. -/
theorem get_refresh_token_valid_some (st : InMemoryStorage) (tv : String)
    (now : Nat) (rt : RefreshToken)
    (hrt : dictGet st.refresh_tokens tv = some rt)
    (hexp : ¬ now > rt.expires_at) (hrev : rt.revoked = false) :
    st.get_refresh_token tv now = some rt := by
  unfold InMemoryStorage.get_refresh_token
  simp [hrt, hexp, hrev]

/-- C8: with a known client and no provided secret, the three refresh-token
failure modes — value not stored, value expired, value revoked — all produce
the one identical 400 response, with the same detail string and unchanged
storage, so the caller cannot tell which mode occurred. -/
theorem claim8_refresh_failures_uniform (cfg : Settings) (st : InMemoryStorage)
    (now : Nat) (nrt tv client_id : String) (client : RegisteredClient)
    (hc : st.get_client client_id = some client) (hblank : tv ≠ "")
    (hfail : dictGet st.refresh_tokens tv = none ∨
      (∃ rt, dictGet st.refresh_tokens tv = some rt ∧ now > rt.expires_at) ∨
      (∃ rt, dictGet st.refresh_tokens tv = some rt ∧ rt.revoked = true)) :
    token_endpoint cfg st now nrt "refresh_token" none none none (some tv)
        client_id none =
      (.error ⟨400, "Invalid or expired refresh token", none⟩, st) := by
  have hnone := get_refresh_token_invalid_none st tv now hfail
  simp [token_endpoint, hc, isBlank, hblank, hnone]

/-- Witness for C8: in one concrete storage, an unknown value, an expired
token, and a revoked token give the very same response. -/
theorem claim8_refresh_failures_uniform_witness :
    (token_endpoint defaultSettings st0 50 "nrt" "refresh_token" none none none
        (some "unknown") "client_abc" none =
      (.error ⟨400, "Invalid or expired refresh token", none⟩, st0)) ∧
    (token_endpoint defaultSettings
        { st0 with refresh_tokens := [("rtX", { rt0 with expires_at := 40 })] }
        50 "nrt" "refresh_token" none none none (some "rtX") "client_abc" none =
      (.error ⟨400, "Invalid or expired refresh token", none⟩,
        { st0 with refresh_tokens := [("rtX", { rt0 with expires_at := 40 })] })) ∧
    (token_endpoint defaultSettings
        { st0 with refresh_tokens := [("rtX", { rt0 with revoked := true })] }
        50 "nrt" "refresh_token" none none none (some "rtX") "client_abc" none =
      (.error ⟨400, "Invalid or expired refresh token", none⟩,
        { st0 with refresh_tokens := [("rtX", { rt0 with revoked := true })] })) :=
  ⟨claim8_refresh_failures_uniform defaultSettings st0 50 "nrt" "unknown"
      "client_abc" client0 (by decide) (by decide) (.inl (by decide)),
   claim8_refresh_failures_uniform defaultSettings _ 50 "nrt" "rtX"
      "client_abc" client0 (by decide) (by decide)
      (.inr (.inl ⟨{ rt0 with expires_at := 40 }, by decide, by decide⟩)),
   claim8_refresh_failures_uniform defaultSettings _ 50 "nrt" "rtX"
      "client_abc" client0 (by decide) (by decide)
      (.inr (.inr ⟨{ rt0 with revoked := true }, by decide, by decide⟩))⟩

/-- C7: with a known client, no provided secret, and a stored, unexpired
refresh token bound to that client: when the token is not revoked, the call
succeeds and mints an access token whose subject, client identifier, and
scope claims are those bound to the refresh token, leaving storage (hence the
refresh-token record) unmodified — and this holds at every call time, so it
repeats; when the token is revoked, the call always fails. -/
theorem claim7_refresh_repeatability (cfg : Settings) (st : InMemoryStorage)
    (now : Nat) (nrt tv client_id : String) (client : RegisteredClient)
    (rt : RefreshToken) (hc : st.get_client client_id = some client)
    (hrt : dictGet st.refresh_tokens tv = some rt)
    (hexp : ¬ now > rt.expires_at) (hcid : rt.client_id = client_id)
    (hblank : tv ≠ "") :
    (rt.revoked = false →
      ∃ resp, token_endpoint cfg st now nrt "refresh_token" none none none
          (some tv) client_id none = (.ok resp, st) ∧
        resp.access_token.claims.sub = rt.user_id ∧
        resp.access_token.claims.client_id = rt.client_id ∧
        resp.access_token.claims.scope = pyOrStr rt.scope "") ∧
    (rt.revoked = true →
      token_endpoint cfg st now nrt "refresh_token" none none none
          (some tv) client_id none =
        (.error ⟨400, "Invalid or expired refresh token", none⟩, st)) := by
  constructor
  · intro hrev
    have hsome := get_refresh_token_valid_some st tv now rt hrt hexp hrev
    refine ⟨{ access_token := (create_access_token cfg now client_id rt.user_id rt.scope).1, token_type := "Bearer", expires_in := cfg.JWT_ACCESS_TOKEN_EXPIRE_MINUTES * 60, refresh_token := some tv, scope := rt.scope }, ?_, ?_, ?_, ?_⟩
    · simp [token_endpoint, hc, isBlank, hblank, hsome, hcid,
        create_access_token]
    · simp [create_access_token]
    · simp [create_access_token, hcid]
    · simp [create_access_token]
  · intro hrev
    have hnone := get_refresh_token_invalid_none st tv now
      (.inr (.inr ⟨rt, hrt, hrev⟩))
    simp [token_endpoint, hc, isBlank, hblank, hnone]

/-- Witness for C7 at the storage fixture. -/
theorem claim7_refresh_repeatability_witness :
    ∃ resp, token_endpoint defaultSettings st0 50 "nrt" "refresh_token" none
        none none (some "rtX") "client_abc" none = (.ok resp, st0) ∧
      resp.access_token.claims.sub = rt0.user_id ∧
      resp.access_token.claims.client_id = rt0.client_id ∧
      resp.access_token.claims.scope = pyOrStr rt0.scope "" :=
  (claim7_refresh_repeatability defaultSettings st0 50 "nrt" "rtX" "client_abc"
    client0 rt0 (by decide) (by decide) (by decide) (by decide) (by decide)).1
    (by decide)

/-- What a successful authorization-code lookup implies: the record is stored,
unexpired, and unused. -/
theorem get_authorization_code_some_elim (st : InMemoryStorage) (code : String)
    (now : Nat) (ac : AuthorizationCode)
    (h : st.get_authorization_code code now = some ac) :
    dictGet st.authorization_codes code = some ac ∧
      ¬ now > ac.expires_at ∧ ac.used = false := by
  unfold InMemoryStorage.get_authorization_code at h
  cases hd : dictGet st.authorization_codes code with
  | none => rw [hd] at h; exact absurd h (by simp)
  | some ac' =>
      rw [hd] at h
      dsimp only at h
      split_ifs at h with h1 h2
      obtain rfl : ac' = ac := by injection h
      exact ⟨rfl, h1, by simpa using h2⟩

/-- A stored, unexpired, unused authorization code is returned by lookup. -/
theorem get_authorization_code_valid_some (st : InMemoryStorage)
    (code : String) (now : Nat) (ac : AuthorizationCode)
    (hdict : dictGet st.authorization_codes code = some ac)
    (hexp : ¬ now > ac.expires_at) (hused : ac.used = false) :
    st.get_authorization_code code now = some ac := by
  unfold InMemoryStorage.get_authorization_code
  simp [hdict, hexp, hused]

/-- Marking a stored, unexpired, unused code as used succeeds and stores the
flipped record. -/
theorem mark_code_as_used_true (st : InMemoryStorage) (code : String)
    (now : Nat) (ac : AuthorizationCode)
    (hdict : dictGet st.authorization_codes code = some ac)
    (hexp : ¬ now > ac.expires_at) (hused : ac.used = false) :
    st.mark_code_as_used code now =
      (true, { st with authorization_codes :=
        (dictSet st.authorization_codes code { ac with used := true }) }) := by
  unfold InMemoryStorage.mark_code_as_used
  simp [hdict, hexp, hused]

/-- A fully matching authorization-code request (stored unexpired unused code,
matching client and redirect URI, verifying PKCE proof) succeeds. -/
theorem token_endpoint_authcode_success (cfg : Settings) (st : InMemoryStorage)
    (now : Nat) (nrt cv vv cid : String) (client : RegisteredClient)
    (ac : AuthorizationCode) (hc : st.get_client cid = some client)
    (hdict : dictGet st.authorization_codes cv = some ac)
    (hused : ac.used = false) (hexp : ¬ now > ac.expires_at)
    (hcid : ac.client_id = cid)
    (hverify : verify_code_challenge vv ac.code_challenge
      ac.code_challenge_method = true)
    (hcv : cv ≠ "") (hvv : vv ≠ "") (hru : ac.redirect_uri ≠ "") :
    (token_endpoint cfg st now nrt "authorization_code" (some cv)
      (some ac.redirect_uri) (some vv) none cid none).1.isOk = true := by
  have hget := get_authorization_code_valid_some st cv now ac hdict hexp hused
  have hmark := mark_code_as_used_true st cv now ac hdict hexp hused
  simp [token_endpoint, hc, isBlank, hcv, hvv, hru, hget, hcid, hverify,
    hmark, Except.isOk, Except.toBool]

/-- C10: when an authorization-code request is rejected because the client
identifier does not match, the redirect URI does not match, or the PKCE
verifier fails, the storage is returned unchanged, the code's used flag is
still false, and a later request with correct parameters (at any unexpired
time) still redeems the code. -/
theorem claim10_rejection_preserves_code (cfg : Settings)
    (st : InMemoryStorage) (now : Nat) (nrt cv ruri vv cid : String)
    (client : RegisteredClient) (ac : AuthorizationCode)
    (hc : st.get_client cid = some client)
    (hcode : st.get_authorization_code cv now = some ac)
    (hcv : cv ≠ "") (hruri : ruri ≠ "") (hvv : vv ≠ "")
    (hrej : ac.client_id ≠ cid ∨ ac.redirect_uri ≠ ruri ∨
      verify_code_challenge vv ac.code_challenge ac.code_challenge_method
        = false) :
    ((token_endpoint cfg st now nrt "authorization_code" (some cv) (some ruri)
        (some vv) none cid none).1.isOk = false ∧
      (token_endpoint cfg st now nrt "authorization_code" (some cv) (some ruri)
        (some vv) none cid none).2 = st) ∧
    ac.used = false ∧
    (∀ now2 nrt2 vv2 cid2 client2, st.get_client cid2 = some client2 →
      ac.client_id = cid2 → ¬ now2 > ac.expires_at → vv2 ≠ "" →
      ac.redirect_uri ≠ "" →
      verify_code_challenge vv2 ac.code_challenge ac.code_challenge_method
        = true →
      (token_endpoint cfg st now2 nrt2 "authorization_code" (some cv)
        (some ac.redirect_uri) (some vv2) none cid2 none).1.isOk = true) := by
  obtain ⟨hdict, hexp, hused⟩ := get_authorization_code_some_elim st cv now ac hcode
  refine ⟨?_, hused, ?_⟩
  · by_cases h1 : ac.client_id = cid
    · by_cases h2 : ac.redirect_uri = ruri
      · have h3 : verify_code_challenge vv ac.code_challenge
            ac.code_challenge_method = false := by
          rcases hrej with h | h | h
          · exact absurd h1 h
          · exact absurd h2 h
          · exact h
        constructor <;>
          simp [token_endpoint, hc, isBlank, hcv, hruri, hvv, hcode, h1, h2, h3,
            Except.isOk, Except.toBool]
      · constructor <;>
          simp [token_endpoint, hc, isBlank, hcv, hruri, hvv, hcode, h1, h2,
            Except.isOk, Except.toBool]
    · constructor <;>
        simp [token_endpoint, hc, isBlank, hcv, hruri, hvv, hcode, h1,
          Except.isOk, Except.toBool]
  · intro now2 nrt2 vv2 cid2 client2 hc2 hcid2 hexp2 hvv2 hru2 hverify2
    exact token_endpoint_authcode_success cfg st now2 nrt2 cv vv2 cid2 client2
      ac hc2 hdict hused hexp2 hcid2 hverify2 hcv hvv2 hru2

/-- Witness for C10: a redirect-URI mismatch rejects without consuming the
code, and the follow-up correct request succeeds. -/
theorem claim10_rejection_preserves_code_witness :
    ((token_endpoint defaultSettings st0 100 "nrt" "authorization_code"
        (some "codeX") (some "https://evil/cb") (some "verifier0") none
        "client_abc" none).1.isOk = false ∧
      (token_endpoint defaultSettings st0 100 "nrt" "authorization_code"
        (some "codeX") (some "https://evil/cb") (some "verifier0") none
        "client_abc" none).2 = st0) ∧
    ac0.used = false ∧
    (∀ now2 nrt2 vv2 cid2 client2, st0.get_client cid2 = some client2 →
      ac0.client_id = cid2 → ¬ now2 > ac0.expires_at → vv2 ≠ "" →
      ac0.redirect_uri ≠ "" →
      verify_code_challenge vv2 ac0.code_challenge ac0.code_challenge_method
        = true →
      (token_endpoint defaultSettings st0 now2 nrt2 "authorization_code"
        (some "codeX") (some ac0.redirect_uri) (some vv2) none cid2
        none).1.isOk = true) :=
  claim10_rejection_preserves_code defaultSettings st0 100 "nrt" "codeX"
    "https://evil/cb" "verifier0" "client_abc" client0 ac0 (by decide)
    (by decide) (by decide) (by decide) (by decide)
    (.inr (.inl (by decide)))

/-- Witness for C9 at a concrete request. -/
theorem claim9_registration_validation_witness :
    ∃ resp st1,
      register_client st0 5 "client_new" "secret_new" regReq0 = (.ok resp, st1) ∧
      resp.client_id = "client_new" ∧
      ∃ c, st1.get_client resp.client_id = some c ∧
        c.client_id = "client_new" ∧ c.redirect_uris = regReq0.redirect_uris :=
  (claim9_registration_validation st0 5 "client_new" "secret_new" regReq0).2
    (by decide)

/-- Running the two phases of one caller back to back, with no interference,
computes exactly `mark_code_as_used` — the fine-grained model refines the
method. -/
theorem markStep_sequential_eq_mark (st : InMemoryStorage) (now : Nat)
    (c : String) :
    (((markStep (markStep st now ⟨.start, c⟩).2 now
        (markStep st now ⟨.start, c⟩).1).1).pc,
      (markStep (markStep st now ⟨.start, c⟩).2 now
        (markStep st now ⟨.start, c⟩).1).2) =
    (.finished (st.mark_code_as_used c now).1,
      (st.mark_code_as_used c now).2) := by
  simp only [markStep, InMemoryStorage.mark_code_as_used]
  cases hd : dictGet st.authorization_codes c with
  | none => simp [hd]
  | some ac =>
      by_cases hu : ac.used <;> by_cases he : now > ac.expires_at <;>
        simp [markStep, hd, hu, he]

/-- C1 evidence: on a fresh unexpired code, the interleaving check-A, check-B,
set-A, set-B makes both concurrent `mark_code_as_used` callers return true —
the code is redeemed twice — whereas the sequential schedule yields one
winner and one loser as the claim demands. -/
theorem claim1_race_two_winners :
    ((runSchedule 100 [true, false, true, false]
        ((⟨.start, "codeX"⟩, ⟨.start, "codeX"⟩), st0)).1.1.pc
          = .finished true ∧
      (runSchedule 100 [true, false, true, false]
        ((⟨.start, "codeX"⟩, ⟨.start, "codeX"⟩), st0)).1.2.pc
          = .finished true) ∧
    ((runSchedule 100 [true, true, false, false]
        ((⟨.start, "codeX"⟩, ⟨.start, "codeX"⟩), st0)).1.1.pc
          = .finished true ∧
      (runSchedule 100 [true, true, false, false]
        ((⟨.start, "codeX"⟩, ⟨.start, "codeX"⟩), st0)).1.2.pc
          = .finished false) := by decide

/-- C2 (amended): any redemption attempt made strictly after the stored
code's expiry fails — the lookup yields none, the used-flag flip fails, and
the token endpoint returns an error with storage unchanged, whatever the
other request parameters. -/
theorem claim2_expiry_enforcement (cfg : Settings) (st : InMemoryStorage)
    (now : Nat) (cv : String) (ac : AuthorizationCode)
    (hdict : dictGet st.authorization_codes cv = some ac)
    (hexp : now > ac.expires_at) :
    st.get_authorization_code cv now = none ∧
    st.mark_code_as_used cv now = (false, st) ∧
    (∀ nrt ro vo rto cid secO,
      (token_endpoint cfg st now nrt "authorization_code" (some cv) ro vo rto
        cid secO).1.isOk = false ∧
      (token_endpoint cfg st now nrt "authorization_code" (some cv) ro vo rto
        cid secO).2 = st) := by
  have hget : st.get_authorization_code cv now = none := by
    unfold InMemoryStorage.get_authorization_code
    simp [hdict, hexp]
  have hmark : st.mark_code_as_used cv now = (false, st) := by
    unfold InMemoryStorage.mark_code_as_used
    by_cases hu : ac.used <;> simp [hdict, hu, hexp]
  refine ⟨hget, hmark, ?_⟩
  intro nrt ro vo rto cid secO
  cases hc : st.get_client cid with
  | none =>
      constructor <;> simp [token_endpoint, hc, Except.isOk, Except.toBool]
  | some client =>
      by_cases hsec : secO ≠ none ∧ client.client_secret ≠ secO
      · constructor <;>
          simp [token_endpoint, hc, hsec, Except.isOk, Except.toBool]
      · by_cases hb : isBlank (some cv) ∨ isBlank ro ∨ isBlank vo
        · constructor <;>
            simp [token_endpoint, hc, hsec, hb, Except.isOk, Except.toBool]
        · constructor <;>
            simp [token_endpoint, hc, hsec, hb, hget, Except.isOk,
              Except.toBool]

/-- Witness for C2 (amended) at a concrete expired code. -/
theorem claim2_expiry_enforcement_witness :
    st0.get_authorization_code "codeX" 2000 = none ∧
    st0.mark_code_as_used "codeX" 2000 = (false, st0) ∧
    (∀ nrt ro vo rto cid secO,
      (token_endpoint defaultSettings st0 2000 nrt "authorization_code"
        (some "codeX") ro vo rto cid secO).1.isOk = false ∧
      (token_endpoint defaultSettings st0 2000 nrt "authorization_code"
        (some "codeX") ro vo rto cid secO).2 = st0) :=
  claim2_expiry_enforcement defaultSettings st0 2000 "codeX" ac0 (by decide)
    (by decide)

/-- C2 counterexample to the claim as stated: with the code lifetime
configured to zero, a code issued by the authorize endpoint at time 100
expires at time 100 itself, yet a redemption at that same instant succeeds,
because the expiry checks use strictly-greater comparison. -/
theorem claim2_counterexample :
    (authorize cfgTtl0 { st0 with authorization_codes := [] } 100 "codeY"
      "code" "client_abc" "https://a/cb" "verifier0" "plain" none
      none).1.isOk = true ∧
    (∃ ac, dictGet (authorize cfgTtl0 { st0 with authorization_codes := [] }
        100 "codeY" "code" "client_abc" "https://a/cb" "verifier0" "plain"
        none none).2.authorization_codes "codeY" = some ac ∧
      ac.expires_at = 100) ∧
    (token_endpoint cfgTtl0
      (authorize cfgTtl0 { st0 with authorization_codes := [] } 100 "codeY"
        "code" "client_abc" "https://a/cb" "verifier0" "plain" none none).2
      100 "nrt" "authorization_code" (some "codeY") (some "https://a/cb")
      (some "verifier0") none "client_abc" none).1.isOk = true := by
  refine ⟨by decide,
    ⟨{ code := "codeY", client_id := "client_abc",
       redirect_uri := "https://a/cb", scope := some "mcp:tools:read",
       code_challenge := "verifier0", code_challenge_method := .plain,
       user_id := "mock_user_123", expires_at := 100, used := false },
      by decide, by decide⟩, by decide⟩

/-- C3 counterexample to the claim as stated: the fixture client is
confidential (it has a secret), the request omits the secret and carries no
PKCE verifier at all, yet the refresh-token grant is accepted — it is not
rejected as InvalidClient. -/
theorem claim3_counterexample :
    client0.client_secret = some "secret0" ∧
    (token_endpoint defaultSettings st0 50 "nrt" "refresh_token" none none
      none (some "rtX") "client_abc" none).1.isOk = true := by
  exact ⟨rfl, by decide⟩

/-- C3 (amended): when the secret is omitted the endpoint skips secret
verification entirely; the PKCE-proof requirement holds only for the
authorization-code grant — any accepted authorization-code request must have
presented a verifier that verifies against the stored challenge. -/
theorem claim3_pkce_required_for_code_grant (cfg : Settings)
    (st : InMemoryStorage) (now : Nat) (nrt : String)
    (co ro vo rto : Option String) (cid : String) (secO : Option String)
    {resp : TokenResponse} {st1 : InMemoryStorage}
    (h : token_endpoint cfg st now nrt "authorization_code" co ro vo rto cid
      secO = (.ok resp, st1)) :
    ∃ ac, st.get_authorization_code (co.getD "") now = some ac ∧
      verify_code_challenge (vo.getD "") ac.code_challenge
        ac.code_challenge_method = true := by
  unfold token_endpoint at h
  cases hc : st.get_client cid with
  | none => rw [hc] at h; exact absurd h (by simp)
  | some client =>
      rw [hc] at h
      dsimp only at h
      by_cases hsec : secO ≠ none ∧ client.client_secret ≠ secO
      · rw [if_pos hsec] at h; exact absurd h (by simp)
      · rw [if_neg hsec, if_pos rfl] at h
        by_cases hb : isBlank co ∨ isBlank ro ∨ isBlank vo
        · rw [if_pos hb] at h; exact absurd h (by simp)
        · rw [if_neg hb] at h
          cases hget : st.get_authorization_code (co.getD "") now with
          | none => rw [hget] at h; exact absurd h (by simp)
          | some ac =>
              rw [hget] at h
              dsimp only at h
              refine ⟨ac, rfl, ?_⟩
              by_cases h1 : ac.client_id ≠ cid
              · rw [if_pos h1] at h; exact absurd h (by simp)
              · rw [if_neg h1] at h
                by_cases h2 : ac.redirect_uri ≠ ro.getD ""
                · rw [if_pos h2] at h; exact absurd h (by simp)
                · rw [if_neg h2] at h
                  by_cases h3 : verify_code_challenge (vo.getD "")
                      ac.code_challenge ac.code_challenge_method = true
                  · exact h3
                  · rw [if_pos (by simpa using h3)] at h
                    exact absurd h (by simp)

/-- Witness for C3 (amended): extracting the verified PKCE proof from a
concrete successful redemption. -/
theorem claim3_pkce_required_for_code_grant_witness :
    ∃ ac, st0.get_authorization_code ((some "codeX").getD "") 100 = some ac ∧
      verify_code_challenge ((some "verifier0").getD "") ac.code_challenge
        ac.code_challenge_method = true :=
  claim3_pkce_required_for_code_grant defaultSettings st0 100 "nrt"
    (some "codeX") (some "https://a/cb") (some "verifier0") none "client_abc"
    none rfl

/-- C5 (amended): every rejected access token yields the same 401 status and
Bearer challenge, but the detail string embeds the underlying library
message, so a bad signature and an elapsed expiry remain distinguishable. -/
theorem claim5_invalid_token_error_shape (cfg : Settings) (tok : Jwt)
    (now : Nat) (e : HTTPException)
    (h : verify_access_token cfg tok now = .error e) :
    (e.status_code = 401 ∧ e.www_authenticate = some "Bearer") ∧
    (tok.sig ≠ jwtSign cfg.JWT_SECRET_KEY tok.claims →
      e.detail = "Invalid token: Signature verification failed.") ∧
    (tok.sig = jwtSign cfg.JWT_SECRET_KEY tok.claims → tok.claims.exp < now →
      e.detail = "Invalid token: Signature has expired.") := by
  unfold verify_access_token jwt_decode at h
  by_cases h1 : tok.sig ≠ jwtSign cfg.JWT_SECRET_KEY tok.claims
  · rw [if_pos h1] at h
    dsimp only at h
    injection h with h
    subst h
    exact ⟨⟨rfl, rfl⟩, fun _ => rfl, fun hs _ => absurd hs h1⟩
  · rw [if_neg h1] at h
    by_cases h2 : tok.claims.exp < now
    · rw [if_pos h2] at h
      dsimp only at h
      injection h with h
      subst h
      exact ⟨⟨rfl, rfl⟩, fun hs => absurd hs h1, fun _ _ => rfl⟩
    · rw [if_neg h2] at h
      by_cases h3 : tok.claims.aud ≠ cfg.SERVER_URL
      · rw [if_pos h3] at h
        dsimp only at h
        injection h with h
        subst h
        exact ⟨⟨rfl, rfl⟩, fun hs => absurd hs h1, fun _ he => absurd he h2⟩
      · rw [if_neg h3] at h
        exact absurd h (by simp)

/-- Witness for C5 (amended) on a concrete tampered token. -/
theorem claim5_invalid_token_error_shape_witness :
    (HTTPException.status_code
        ⟨401, "Invalid token: Signature verification failed.", some "Bearer"⟩
          = 401 ∧
      HTTPException.www_authenticate
        ⟨401, "Invalid token: Signature verification failed.", some "Bearer"⟩
          = some "Bearer") ∧
    (tok0Tampered.sig ≠ jwtSign defaultSettings.JWT_SECRET_KEY
        tok0Tampered.claims →
      HTTPException.detail
        ⟨401, "Invalid token: Signature verification failed.", some "Bearer"⟩
          = "Invalid token: Signature verification failed.") ∧
    (tok0Tampered.sig = jwtSign defaultSettings.JWT_SECRET_KEY
        tok0Tampered.claims →
      tok0Tampered.claims.exp < 0 →
      HTTPException.detail
        ⟨401, "Invalid token: Signature verification failed.", some "Bearer"⟩
          = "Invalid token: Signature has expired.") :=
  claim5_invalid_token_error_shape defaultSettings tok0Tampered 0
    ⟨401, "Invalid token: Signature verification failed.", some "Bearer"⟩
    (by rfl)

set_option maxRecDepth 10000 in
/-- C5 counterexample to the claim as stated: an expired token and a
signature-tampered token are both rejected with status 401 and the same
challenge header, but with different detail strings — the two failure causes
are distinguishable in error shape. -/
theorem claim5_counterexample :
    verify_access_token defaultSettings tok0 (tok0.claims.exp + 1) =
      .error ⟨401, "Invalid token: Signature has expired.", some "Bearer"⟩ ∧
    verify_access_token defaultSettings tok0Tampered (tok0.claims.exp + 1) =
      .error ⟨401, "Invalid token: Signature verification failed.",
        some "Bearer"⟩ ∧
    "Invalid token: Signature has expired." ≠
      "Invalid token: Signature verification failed." := by
  refine ⟨by rfl, by rfl, by decide⟩

/-- The bytes of one word are below 256. -/
theorem wordBytes_lt (w : Nat) : ∀ b ∈ wordBytes w, b < 256 := by
  intro b hb
  simp [wordBytes] at hb
  omega

/-- A SHA-256 digest has 32 bytes. -/
theorem sha256_length (m : List Nat) : (sha256 m).length = 32 := rfl

/-- Every byte of a SHA-256 digest is below 256. -/
theorem sha256_lt (m : List Nat) : ∀ b ∈ sha256 m, b < 256 := by
  intro b hb
  simp only [sha256, sha256Digest, List.mem_append] at hb
  rcases hb with ((((((h | h) | h) | h) | h) | h) | h) | h <;>
    exact wordBytes_lt _ b h

/-- The base-256 value of a bounded byte list is below `256 ^ length`. -/
theorem bytesToNat_lt (bs : List Nat) (h : ∀ b ∈ bs, b < 256) :
    bytesToNat bs < 256 ^ bs.length := by
  induction bs with
  | nil => simp [bytesToNat]
  | cons b rest ih =>
      have hb : b < 256 := h b (by simp)
      have hr := ih (fun x hx => h x (by simp [hx]))
      simp only [bytesToNat, List.length_cons]
      calc b * 256 ^ rest.length + bytesToNat rest
          < b * 256 ^ rest.length + 256 ^ rest.length :=
            Nat.add_lt_add_left hr _
        _ = (b + 1) * 256 ^ rest.length := by ring
        _ ≤ 256 * 256 ^ rest.length :=
            Nat.mul_le_mul_right _ (by omega)
        _ = 256 ^ (rest.length + 1) := by ring

/-- The base-256 value determines a bounded byte list of known length. -/
theorem bytesToNat_inj : ∀ xs ys : List Nat, (∀ b ∈ xs, b < 256) →
    (∀ b ∈ ys, b < 256) → xs.length = ys.length →
    bytesToNat xs = bytesToNat ys → xs = ys := by
  intro xs
  induction xs with
  | nil =>
      intro ys _ _ hlen _
      cases ys with
      | nil => rfl
      | cons _ _ => simp at hlen
  | cons b rest ih =>
      intro ys hx hy hlen heq
      cases ys with
      | nil => simp at hlen
      | cons b' rest' =>
          have hlen' : rest.length = rest'.length := by simpa using hlen
          have hbx : b < 256 := hx b (by simp)
          have hby : b' < 256 := hy b' (by simp)
          have hrx := bytesToNat_lt rest (fun x h => hx x (by simp [h]))
          have hry := bytesToNat_lt rest' (fun x h => hy x (by simp [h]))
          simp only [bytesToNat] at heq
          rw [hlen'] at heq hrx
          have hK : 0 < 256 ^ rest'.length := Nat.pos_pow_of_pos _ (by omega)
          have e1 : (b * 256 ^ rest'.length + bytesToNat rest) /
              256 ^ rest'.length = b := by
            rw [Nat.mul_comm b, Nat.mul_add_div hK,
              Nat.div_eq_of_lt hrx, Nat.add_zero]
          have e2 : (b' * 256 ^ rest'.length + bytesToNat rest') /
              256 ^ rest'.length = b' := by
            rw [Nat.mul_comm b', Nat.mul_add_div hK,
              Nat.div_eq_of_lt hry, Nat.add_zero]
          rw [heq, e2] at e1
          subst e1
          have hr : bytesToNat rest = bytesToNat rest' :=
            Nat.add_left_cancel heq
          rw [ih rest' (fun x h => hx x (by simp [h]))
            (fun x h => hy x (by simp [h])) hlen' hr]

/-- `sextetOf` inverts `b64Char` on sextets. -/
theorem sextetOf_b64Char_fin : ∀ s : Fin 64, sextetOf (b64Char s.val) = s.val := by
  decide

/-- `sextetOf` inverts `b64Char` below 64. -/
theorem sextetOf_b64Char (s : Nat) (h : s < 64) :
    sextetOf (b64Char s) = s := sextetOf_b64Char_fin ⟨s, h⟩

/-- Decoding inverts unpadded base64url encoding on bounded byte lists. -/
theorem b64Decode_b64urlNoPad (bs : List Nat) (h : ∀ b ∈ bs, b < 256) :
    b64Decode (b64urlNoPad bs) = bs := by
  induction bs using b64urlNoPad.induct with
  | case1 => rfl
  | case2 a =>
      have ha : a < 256 := h a (by simp)
      simp only [b64urlNoPad, b64Decode]
      rw [sextetOf_b64Char _ (by omega), sextetOf_b64Char _ (by omega)]
      congr 1
      omega
  | case3 a b =>
      have ha : a < 256 := h a (by simp)
      have hb : b < 256 := h b (by simp)
      simp only [b64urlNoPad, b64Decode]
      rw [sextetOf_b64Char _ (by omega), sextetOf_b64Char _ (by omega),
        sextetOf_b64Char _ (by omega)]
      congr 1
      · omega
      · congr 1
        omega
  | case4 a b c rest ih =>
      have ha : a < 256 := h a (by simp)
      have hb : b < 256 := h b (by simp)
      have hc : c < 256 := h c (by simp)
      have hrest := ih (fun x hx => h x (by simp [hx]))
      simp only [b64urlNoPad, b64Decode]
      rw [sextetOf_b64Char _ (by omega), sextetOf_b64Char _ (by omega),
        sextetOf_b64Char _ (by omega), sextetOf_b64Char _ (by omega), hrest]
      congr 1
      · omega
      · congr 1
        · omega
        · congr 1
          omega

/-- Unpadded base64url encoding is injective on bounded byte lists. -/
theorem b64urlNoPad_inj (xs ys : List Nat) (hx : ∀ b ∈ xs, b < 256)
    (hy : ∀ b ∈ ys, b < 256) (h : b64urlNoPad xs = b64urlNoPad ys) :
    xs = ys := by
  calc xs = b64Decode (b64urlNoPad xs) := (b64Decode_b64urlNoPad xs hx).symm
    _ = b64Decode (b64urlNoPad ys) := by rw [h]
    _ = ys := b64Decode_b64urlNoPad ys hy

/-- Distinct lengths give distinct verifier strings. -/
theorem repChar_injective : Function.Injective repChar := by
  intro a b h
  have hdata := congrArg String.data h
  simp only [repChar] at hdata
  have := congrArg List.length hdata
  simpa using this

/-- SHA-256 maps infinitely many verifiers onto finitely many 32-byte
digests, so some two distinct verifiers collide. -/
theorem sha256_repChar_collision :
    ∃ n m : Nat, n ≠ m ∧
      sha256 (utf8 (repChar n)) = sha256 (utf8 (repChar m)) := by
  have hF : ∀ n : Nat, bytesToNat (sha256 (utf8 (repChar n))) < 256 ^ 32 := by
    intro n
    have h1 := bytesToNat_lt (sha256 (utf8 (repChar n))) (sha256_lt _)
    rwa [sha256_length] at h1
  obtain ⟨n, m, hne, heq⟩ := Finite.exists_ne_map_eq_of_infinite shaFin
  refine ⟨n, m, hne, ?_⟩
  have hval : (shaFin n).val = (shaFin m).val := congrArg Fin.val heq
  simp only [shaFin] at hval
  rw [Nat.mod_eq_of_lt (hF n), Nat.mod_eq_of_lt (hF m)] at hval
  refine bytesToNat_inj _ _ (sha256_lt _) (sha256_lt _) ?_ hval
  rw [sha256_length, sha256_length]

/-- C6 counterexample to the claim as stated: the universally quantified
distinctness half is false — there exist two distinct verifiers that verify
against the same S256 challenge, because infinitely many verifiers share one
of the finitely many SHA-256 digests. -/
theorem claim6_counterexample :
    ∃ v v' : String, v ≠ v' ∧
      verify_code_challenge v' (generate_code_challenge v .S256) .S256
        = true := by
  obtain ⟨n, m, hne, heq⟩ := sha256_repChar_collision
  refine ⟨repChar n, repChar m,
    fun hcontra => hne (repChar_injective hcontra), ?_⟩
  have hgen : generate_code_challenge (repChar m) .S256 =
      generate_code_challenge (repChar n) .S256 := by
    unfold generate_code_challenge
    rw [← heq]
  unfold verify_code_challenge
  rw [hgen]
  exact beq_self_eq_true _

/-- C6 (amended): for every verifier and method, verification of the
verifier's own challenge succeeds; and a second verifier fails against the
first one's S256 challenge whenever their SHA-256 digests differ — which is
the exact extent to which the code can distinguish verifiers. -/
theorem claim6_pkce_roundtrip :
    (∀ (v : String) (m : CodeChallengeMethod),
      verify_code_challenge v (generate_code_challenge v m) m = true) ∧
    (∀ v v' : String, sha256 (utf8 v) ≠ sha256 (utf8 v') →
      verify_code_challenge v' (generate_code_challenge v .S256) .S256
        = false) := by
  constructor
  · intro v m
    unfold verify_code_challenge
    exact beq_self_eq_true _
  · intro v v' hne
    by_contra hcontra
    have htrue : verify_code_challenge v'
        (generate_code_challenge v .S256) .S256 = true := by
      simpa using hcontra
    unfold verify_code_challenge at htrue
    have hgen : generate_code_challenge v' .S256 =
        generate_code_challenge v .S256 := eq_of_beq htrue
    unfold generate_code_challenge at hgen
    have hlist : b64urlNoPad (sha256 (utf8 v')) =
        b64urlNoPad (sha256 (utf8 v)) := by
      have hdata := congrArg String.data hgen
      simpa [List.asString] using hdata
    have hsha : sha256 (utf8 v') = sha256 (utf8 v) :=
      b64urlNoPad_inj _ _ (sha256_lt _) (sha256_lt _) hlist
    exact hne hsha.symm

/-- Witness for C6 (amended) at two concrete verifiers with distinct
digests. -/
theorem claim6_pkce_roundtrip_witness :
    verify_code_challenge "a" (generate_code_challenge "a" .S256) .S256
      = true ∧
    verify_code_challenge "b" (generate_code_challenge "a" .S256) .S256
      = false :=
  ⟨claim6_pkce_roundtrip.1 "a" .S256,
   claim6_pkce_roundtrip.2 "a" "b" (by decide)⟩

/-- The S256 challenge of the RFC 7636 Appendix B test verifier matches the
published vector, validating the SHA-256, UTF-8, and base64url embeddings
against what `hashlib.sha256` and `base64.urlsafe_b64encode` compute. -/
theorem generate_code_challenge_rfc7636 :
    generate_code_challenge "dBjftJeZ4CVP-mB92K27uhbUJU1p1r_wW1gFWFOEjXk" .S256
      = "E9Melhoa2OwvFrEMTJguCHaoeK1t8URWbuGJSstw-cM" := by decide

end OAuthCore
